import Mathlib

set_option maxHeartbeats 1000000

namespace Authorization

/-- A stored user row (src/src/models/User.ts). Fields other than the primary
key are Option-valued: none models a JavaScript undefined (or SQL NULL) passed
through from a request body, since the handlers forward body fields to the
store without any presence check. -/
structure User where
  id : String
  name : Option String
  phone : Option String
  email : Option String
  age : Option Int
  weight : Option Int
deriving DecidableEq

/-- The request-body fields read by the create and update handlers via
destructuring of request.body. A field missing from the body destructures to
undefined, modelled as none. -/
structure ReqBody where
  name : Option String
  phone : Option String
  email : Option String
  age : Option Int
  weight : Option Int
deriving DecidableEq

/-- A JSON response body: a message object, a single user object, or an array
of user objects. -/
inductive Body where
  | msg (m : String)
  | user (u : User)
  | users (us : List User)
deriving DecidableEq

/-- An HTTP response: status code, the headers set via response.set, and the
JSON body passed to response.json. -/
structure Resp where
  status : Nat
  headers : List (String × String)
  body : Body
deriving DecidableEq

/-- The observable outcome of one handler call: the HTTP response, the users
table after the call, and the errors logged via console.error, in order. Each
logged error is modelled by the marker string "err". -/
structure HandlerOutput where
  resp : Resp
  db : List User
  log : List String
deriving DecidableEq

/-- Split a character list at every occurrence of the separator, keeping empty
segments, as the JavaScript split method does. -/
def splitOnChar (sep : Char) : List Char → List (List Char)
  | [] => [[]]
  | c :: cs =>
    if c = sep then [] :: splitOnChar sep cs
    else
      match splitOnChar sep cs with
      | [] => [[c]]
      | g :: gs => (c :: g) :: gs

/-- Modelled from the spec: the email-validator package is an external
dependency, not part of this repository, so its validate function is embedded
as the standard email-syntax check the spec describes: falsy input rejected,
overall length at most 254, exactly one at-sign separating a non-empty local
part of at most 64 characters from a domain of at least two non-empty
dot-separated labels of at most 63 characters each. -/
def validate : Option String → Bool
  | none => false
  | some e =>
    let cs := e.data
    if cs.length = 0 ∨ cs.length > 254 then false
    else
      match splitOnChar '@' cs with
      | [lpart, dpart] =>
        decide (0 < lpart.length) && decide (lpart.length ≤ 64) &&
        decide (0 < dpart.length) &&
        (let labels := splitOnChar '.' dpart
         decide (2 ≤ labels.length) &&
         labels.all (fun p => decide (0 < p.length) && decide (p.length ≤ 63)))
      | _ => false

/-- The two lowercase hex characters encoding one byte, as the Buffer hex
encoding renders each byte; the digit below sixteen is rendered by the
standard digit character function. -/
def byteToHex (b : Nat) : List Char :=
  [Nat.digitChar (b % 256 / 16), Nat.digitChar (b % 16)]

/-- The hex characters of a byte sequence: randomBytes(4).toString with the
hex encoding yields bytesToHex over the four random bytes. -/
def bytesToHex : List Nat → List Char
  | [] => []
  | b :: bs => byteToHex b ++ bytesToHex bs

/-- The hex string id generated by the create handler from the random bytes. -/
def bytesToHexStr (bs : List Nat) : String :=
  ⟨bytesToHex bs⟩

/-- Whether a character is a lowercase hexadecimal digit. -/
def isHexDigit (c : Char) : Bool :=
  c.isDigit || ('a' ≤ c && c ≤ 'f')

/-- How a possibly-undefined string renders inside a template literal:
undefined prints as the text undefined. -/
def renderOpt : Option String → String
  | none => "undefined"
  | some s => s

/-- The first row whose id column equals the given id: the where-by-id query
followed by select star and first. -/
def findById (id : String) (db : List User) : Option User :=
  db.find? (fun u => u.id == id)

/-- The list handler (index in UsersController): select all rows and the total
count; set the X-Total-Count header; 404 when the count is zero, otherwise 200
with the list. A store failure in either query reaches the catch block, which
logs and responds 500 — without the header having been set, since response.set
runs only after both awaits succeed. The two flags model the two awaited
queries rejecting. -/
def index (db : List User) (selectFails countFails : Bool) : HandlerOutput :=
  if selectFails || countFails then
    { resp := { status := 500, headers := [],
                body := Body.msg "Error when trying to access Users in the database." },
      db := db, log := ["err"] }
  else
    let users := db
    let total := db.length
    let hdrs := [("X-Total-Count", toString total)]
    if total = 0 then
      { resp := { status := 404, headers := hdrs,
                  body := Body.msg "There are no users in the database." },
        db := db, log := [] }
    else
      { resp := { status := 200, headers := hdrs, body := Body.users users },
        db := db, log := [] }

/-- The get-one handler (show in UsersController; named showUser here because
show is a Lean keyword): fetch the first row matching the path id; 404 naming
the id when absent, 200 with the row when present, 500 with a logged error
when the query fails. -/
def showUser (id : String) (db : List User) (queryFails : Bool) : HandlerOutput :=
  if queryFails then
    { resp := { status := 500, headers := [],
                body := Body.msg ("Error when trying to access User with ID " ++ id ++ " in the database.") },
      db := db, log := ["err"] }
  else
    match findById id db with
    | none =>
      { resp := { status := 404, headers := [],
                  body := Body.msg ("User with ID " ++ id ++ " not found in the database.") },
        db := db, log := [] }
    | some u =>
      { resp := { status := 200, headers := [], body := Body.user u },
        db := db, log := [] }

/-- The create handler: validate the body email and answer 400 naming it when
invalid, with no query issued; otherwise build the id from the four random
bytes, insert the full record, and respond 201 naming the id; a failing insert
is caught, logged and answered 500. The byte list models the randomBytes(4)
output and the flag models the insert rejecting. -/
def create (body : ReqBody) (bytes : List Nat) (insertFails : Bool) (db : List User) : HandlerOutput :=
  if !validate body.email then
    { resp := { status := 400, headers := [],
                body := Body.msg ("The email " ++ renderOpt body.email ++ " is not in a valid format.") },
      db := db, log := [] }
  else if insertFails then
    { resp := { status := 500, headers := [],
                body := Body.msg "Error when trying to insert new User in the database." },
      db := db, log := ["err"] }
  else
    let id := bytesToHexStr bytes
    let new_user : User :=
      { id := id, name := body.name, phone := body.phone, email := body.email,
        age := body.age, weight := body.weight }
    { resp := { status := 201, headers := [],
                body := Body.msg ("User with ID " ++ id ++ " was created.") },
      db := db ++ [new_user], log := [] }

/-- The record written by the update query: all five mutable columns replaced
by the body values at once, the id column untouched. -/
def updateUser (body : ReqBody) (u : User) : User :=
  { id := u.id, name := body.name, phone := body.phone, email := body.email,
    age := body.age, weight := body.weight }

/-- The table after the update query: every row matching the id is overwritten
with the body values (the where-by-id update statement). -/
def overwriteById (id : String) (body : ReqBody) (db : List User) : List User :=
  db.map (fun v => if v.id == id then updateUser body v else v)

/-- The table after the delete query: every row matching the id is removed
(the where-by-id delete statement). -/
def deleteById (id : String) (db : List User) : List User :=
  db.filter (fun u => u.id != id)

/-- The update handler (change): fetch the row by the path id; 404 naming the
id when absent; otherwise run the update and respond 200 naming the id. The
inner catch answers 500 naming the id without logging; the outer catch (the
fetch failing) logs and answers 500. The flags model the two awaited queries
rejecting. -/
def change (id : String) (body : ReqBody) (outerFails innerFails : Bool) (db : List User) : HandlerOutput :=
  if outerFails then
    { resp := { status := 500, headers := [],
                body := Body.msg ("Error when trying to access User with ID " ++ id ++ " in the database.") },
      db := db, log := ["err"] }
  else
    match findById id db with
    | none =>
      { resp := { status := 404, headers := [],
                  body := Body.msg ("User with ID " ++ id ++ " not found to be changed.") },
        db := db, log := [] }
    | some _ =>
      if innerFails then
        { resp := { status := 500, headers := [],
                    body := Body.msg ("Could not update User with ID " ++ id ++ ".") },
          db := db, log := [] }
      else
        { resp := { status := 200, headers := [],
                    body := Body.msg ("User with ID " ++ id ++ " was updated.") },
          db := overwriteById id body db, log := [] }

/-- The delete handler (remove): fetch the row by the path id; 404 naming the
id when absent; otherwise delete by id and respond 200 naming the id (the
source message carries a trailing blank before the closing quote). Both the
outer fetch failure and the inner delete failure are logged and answered
500. -/
def remove (id : String) (outerFails innerFails : Bool) (db : List User) : HandlerOutput :=
  if outerFails then
    { resp := { status := 500, headers := [],
                body := Body.msg ("Error when trying to access User with ID " ++ id ++ " in the database.") },
      db := db, log := ["err"] }
  else
    match findById id db with
    | none =>
      { resp := { status := 404, headers := [],
                  body := Body.msg ("User with ID " ++ id ++ " was not found to be deleted.") },
        db := db, log := [] }
    | some _ =>
      if innerFails then
        { resp := { status := 500, headers := [],
                    body := Body.msg ("Could not delete User with ID " ++ id ++ ".") },
          db := db, log := ["err"] }
      else
        { resp := { status := 200, headers := [],
                    body := Body.msg ("User with ID " ++ id ++ " deleted. ") },
          db := deleteById id db, log := [] }

/-- The digit character of a value below sixteen is a lowercase hex digit. -/
theorem digitChar_hex (n : Nat) (h : n < 16) : isHexDigit (Nat.digitChar n) = true := by
  interval_cases n <;> decide

/-- The hex encoding of a byte list has two characters per byte. -/
theorem bytesToHex_length (bs : List Nat) : (bytesToHex bs).length = 2 * bs.length := by
  induction bs with
  | nil => rfl
  | cons b bs ih =>
    simp only [bytesToHex, byteToHex, List.length_append, List.length_cons, List.length_nil, ih]
    omega

/-- Every character of the hex encoding of a byte list is a hex digit. -/
theorem bytesToHex_all_hex (bs : List Nat) : (bytesToHex bs).all isHexDigit = true := by
  induction bs with
  | nil => rfl
  | cons b bs ih =>
    have h1 : isHexDigit (Nat.digitChar (b % 256 / 16)) = true := digitChar_hex _ (by omega)
    have h2 : isHexDigit (Nat.digitChar (b % 16)) = true := digitChar_hex _ (by omega)
    simp only [bytesToHex, byteToHex, List.all_append, List.all_cons, List.all_nil, ih,
      h1, h2, Bool.and_self, Bool.and_true]

/-- C1: a create request whose body email fails the syntax check is answered
400 with a message naming the invalid email, the users table is unchanged,
nothing is logged, and the outcome does not depend on the random bytes — no id
is generated. -/
theorem create_invalid_email_rejected (body : ReqBody) (bytes bytes2 : List Nat)
    (insertFails : Bool) (db : List User) (h : validate body.email = false) :
    create body bytes insertFails db =
      ⟨⟨400, [], Body.msg ("The email " ++ renderOpt body.email ++ " is not in a valid format.")⟩,
       db, []⟩ ∧
    create body bytes insertFails db = create body bytes2 insertFails db := by
  unfold create
  rw [h]
  exact ⟨rfl, rfl⟩

/-- C1 witness: the theorem applied to the email not-an-email, which fails the
syntax check, on a concrete store. -/
theorem create_invalid_email_rejected_witness :
    create ⟨some "Alice", some "555", some "not-an-email", some 30, some 70⟩ [0, 26, 188, 255] false [] =
      ⟨⟨400, [], Body.msg ("The email " ++ renderOpt (some "not-an-email") ++ " is not in a valid format.")⟩,
       [], []⟩ ∧
    create ⟨some "Alice", some "555", some "not-an-email", some 30, some 70⟩ [0, 26, 188, 255] false [] =
      create ⟨some "Alice", some "555", some "not-an-email", some 30, some 70⟩ [1, 2, 3, 4] false [] :=
  create_invalid_email_rejected _ _ _ _ _ (by decide)

/-- C2: a create request with a valid body email and a succeeding insert
appends exactly one record carrying the generated id and the five body fields,
answers 201 with a message containing the new id, and the id is a fixed-width
token of eight lowercase hexadecimal characters. -/
theorem create_valid_email_inserts (body : ReqBody) (bytes : List Nat) (db : List User)
    (hv : validate body.email = true) (hb : bytes.length = 4) :
    create body bytes false db =
      ⟨⟨201, [], Body.msg ("User with ID " ++ bytesToHexStr bytes ++ " was created.")⟩,
       db ++ [⟨bytesToHexStr bytes, body.name, body.phone, body.email, body.age, body.weight⟩],
       []⟩ ∧
    (bytesToHexStr bytes).length = 8 ∧
    (bytesToHex bytes).all isHexDigit = true := by
  refine ⟨?_, ?_, bytesToHex_all_hex bytes⟩
  · unfold create
    rw [hv]
    rfl
  · show (bytesToHex bytes).length = 8
    rw [bytesToHex_length, hb]

/-- C2 witness: the theorem applied to a valid email and four concrete random
bytes on a concrete store. -/
theorem create_valid_email_inserts_witness :
    create ⟨some "Alice", some "555", some "a@b.com", some 30, some 70⟩ [0, 26, 188, 255] false [] =
      ⟨⟨201, [], Body.msg ("User with ID " ++ bytesToHexStr [0, 26, 188, 255] ++ " was created.")⟩,
       [] ++ [⟨bytesToHexStr [0, 26, 188, 255], some "Alice", some "555", some "a@b.com", some 30, some 70⟩],
       []⟩ ∧
    (bytesToHexStr [0, 26, 188, 255]).length = 8 ∧
    (bytesToHex [0, 26, 188, 255]).all isHexDigit = true :=
  create_valid_email_inserts _ _ _ (by decide) (by decide)

/-- C3: when both list queries succeed, the list handler answers 404 with a
descriptive message on an empty table, and otherwise 200 with the full list of
the k stored records as the body; in both cases the X-Total-Count header holds
the total count. -/
theorem index_success_behavior (db : List User) :
    index db false false =
      (if db.length = 0 then
        ⟨⟨404, [("X-Total-Count", toString db.length)],
          Body.msg "There are no users in the database."⟩, db, []⟩
      else
        ⟨⟨200, [("X-Total-Count", toString db.length)], Body.users db⟩, db, []⟩) := by
  unfold index
  by_cases h : db.length = 0 <;> simp [h]

/-- C4 counterexample: on a store failure the list handler answers 500 with no
X-Total-Count header at all, since response.set runs only after both queries
succeed — so not every list response carries the header. -/
theorem index_failure_header_missing :
    (index [] true false).resp.status = 500 ∧
    ((index [] true false).resp.headers).lookup "X-Total-Count" = none := by
  constructor <;> rfl

/-- C4 amended: the 200 and 404 responses of the list handler carry the
X-Total-Count header equal to the total count of user records, but the 500
store-failure response carries no X-Total-Count header. -/
theorem index_header_behavior (db : List User) (sf cf : Bool) :
    ((index db sf cf).resp.headers).lookup "X-Total-Count" =
      (if sf || cf then none else some (toString db.length)) := by
  unfold index
  cases sf <;> cases cf <;> first
    | rfl
    | (by_cases h : db.length = 0 <;> simp [h, List.lookup])

/-- C5: an update request whose path id matches no record, with a succeeding
existence check, is answered 404 with a message naming the id, and the users
table is unchanged — in particular no row is created. -/
theorem change_missing_id (id : String) (body : ReqBody) (iF : Bool) (db : List User)
    (h : findById id db = none) :
    change id body false iF db =
      ⟨⟨404, [], Body.msg ("User with ID " ++ id ++ " not found to be changed.")⟩, db, []⟩ := by
  simp [change, h]

/-- C5 witness: the theorem applied to an id absent from a concrete store. -/
theorem change_missing_id_witness :
    change "zz" ⟨some "N", none, none, none, none⟩ false true [⟨"aa", none, none, none, none, none⟩] =
      ⟨⟨404, [], Body.msg ("User with ID " ++ "zz" ++ " not found to be changed.")⟩,
       [⟨"aa", none, none, none, none, none⟩], []⟩ :=
  change_missing_id _ _ _ _ (by decide)

/-- C8: the update handler never answers 400, whatever the body email: every
outcome has status 200, 404 or 500 — the email is validated at creation time
only. -/
theorem change_never_400 (id : String) (body : ReqBody) (oF iF : Bool) (db : List User) :
    (change id body oF iF db).resp.status ∈ [200, 404, 500] := by
  unfold change
  split
  · simp
  · split
    · simp
    · split <;> simp

/-- C10: the list handler and the get-one handler are read-only — on every
outcome the users table after the call equals the table before it. -/
theorem index_show_readonly (db : List User) (sf cf qf : Bool) (id : String) :
    (index db sf cf).db = db ∧ (showUser id db qf).db = db := by
  constructor
  · by_cases h : (sf || cf) = true <;>
      by_cases h2 : db.length = 0 <;>
        simp [index, h, h2]
  · by_cases h : qf = true
    · simp [showUser, h]
    · cases hf : findById id db <;> simp [showUser, h, hf]

/-- After an overwrite by id, the lookup by that id finds the first matching
row with all five mutable fields replaced by the body values. -/
theorem findById_overwriteById (body : ReqBody) (id : String) (db : List User) :
    ∀ (u : User), findById id db = some u →
      findById id (overwriteById id body db) = some (updateUser body u) := by
  unfold findById overwriteById
  induction db with
  | nil =>
    intro u h
    simp [List.find?] at h
  | cons a l ih =>
    intro u h
    simp only [List.find?_cons] at h
    rw [List.map_cons]
    cases ha : (a.id == id) with
    | true =>
      rw [ha] at h
      have h2 : some a = some u := h
      injection h2 with h2
      subst h2
      rw [show (if true = true then updateUser body a else a) = updateUser body a from rfl]
      exact List.find?_cons_of_pos _ (show ((updateUser body a).id == id) = true from ha)
    | false =>
      rw [ha] at h
      have h2 : List.find? (fun v => v.id == id) l = some u := h
      rw [show (if false = true then updateUser body a else a) = a from rfl]
      exact (List.find?_cons_of_neg (p := fun (v : User) => v.id == id) _ (by simp [ha])).trans (ih u h2)

/-- After a delete by id, the lookup by that id finds nothing. -/
theorem findById_deleteById (id : String) (db : List User) :
    findById id (deleteById id db) = none := by
  unfold findById deleteById
  rw [List.find?_eq_none]
  intro x hx
  have hmem := List.mem_filter.mp hx
  simp only [bne_iff_ne, ne_eq] at hmem
  simp [hmem.2]

/-- C6: an update request whose path id matches an existing record, with both
queries succeeding, overwrites all five mutable fields of the matching rows
with the body values at once — a full overwrite, so an omitted body field
(none) replaces the stored value — answers 200 naming the id, and a subsequent
get-one on that id returns the record carrying exactly the body values. -/
theorem change_existing_overwrites (id : String) (body : ReqBody) (u : User) (db : List User)
    (h : findById id db = some u) :
    change id body false false db =
      ⟨⟨200, [], Body.msg ("User with ID " ++ id ++ " was updated.")⟩,
       overwriteById id body db, []⟩ ∧
    showUser id ((change id body false false db).db) false =
      ⟨⟨200, [], Body.user (updateUser body u)⟩, overwriteById id body db, []⟩ ∧
    (updateUser body u).name = body.name ∧
    (updateUser body u).phone = body.phone ∧
    (updateUser body u).email = body.email ∧
    (updateUser body u).age = body.age ∧
    (updateUser body u).weight = body.weight := by
  have h1 : change id body false false db =
      ⟨⟨200, [], Body.msg ("User with ID " ++ id ++ " was updated.")⟩,
       overwriteById id body db, []⟩ := by
    simp [change, h]
  have h2 := findById_overwriteById body id db u h
  refine ⟨h1, ?_, rfl, rfl, rfl, rfl, rfl⟩
  rw [h1]
  simp [showUser, h2]

/-- C6 witness: the theorem applied to a store holding one record with id aa
and a body that replaces every field, two of them with the undefined value. -/
theorem change_existing_overwrites_witness :
    change "aa" ⟨some "New", none, some "n@n.com", some 9, none⟩ false false
        [⟨"aa", some "Old", some "0", some "o@o.com", some 1, some 2⟩] =
      ⟨⟨200, [], Body.msg ("User with ID " ++ "aa" ++ " was updated.")⟩,
       overwriteById "aa" ⟨some "New", none, some "n@n.com", some 9, none⟩
         [⟨"aa", some "Old", some "0", some "o@o.com", some 1, some 2⟩], []⟩ ∧
    showUser "aa"
        ((change "aa" ⟨some "New", none, some "n@n.com", some 9, none⟩ false false
          [⟨"aa", some "Old", some "0", some "o@o.com", some 1, some 2⟩]).db) false =
      ⟨⟨200, [], Body.user (updateUser ⟨some "New", none, some "n@n.com", some 9, none⟩
          ⟨"aa", some "Old", some "0", some "o@o.com", some 1, some 2⟩)⟩,
       overwriteById "aa" ⟨some "New", none, some "n@n.com", some 9, none⟩
         [⟨"aa", some "Old", some "0", some "o@o.com", some 1, some 2⟩], []⟩ ∧
    (updateUser ⟨some "New", none, some "n@n.com", some 9, none⟩
        ⟨"aa", some "Old", some "0", some "o@o.com", some 1, some 2⟩).name = some "New" ∧
    (updateUser ⟨some "New", none, some "n@n.com", some 9, none⟩
        ⟨"aa", some "Old", some "0", some "o@o.com", some 1, some 2⟩).phone = none ∧
    (updateUser ⟨some "New", none, some "n@n.com", some 9, none⟩
        ⟨"aa", some "Old", some "0", some "o@o.com", some 1, some 2⟩).email = some "n@n.com" ∧
    (updateUser ⟨some "New", none, some "n@n.com", some 9, none⟩
        ⟨"aa", some "Old", some "0", some "o@o.com", some 1, some 2⟩).age = some 9 ∧
    (updateUser ⟨some "New", none, some "n@n.com", some 9, none⟩
        ⟨"aa", some "Old", some "0", some "o@o.com", some 1, some 2⟩).weight = none :=
  change_existing_overwrites _ _ _ _ (by decide)

/-- C7: when the update handler finds the record but the inner update query
fails, it answers 500 naming the id with an empty log — while every other
500-answering failure path of the five handlers logs the error: the list,
get-one and create store failures, the update and delete existence-check
failures, and the inner delete failure. -/
theorem change_inner_failure_unlogged (id : String) (body : ReqBody) (bytes : List Nat)
    (u : User) (db : List User) (iF : Bool)
    (h : findById id db = some u) (hv : validate body.email = true) :
    change id body false true db =
      ⟨⟨500, [], Body.msg ("Could not update User with ID " ++ id ++ ".")⟩, db, []⟩ ∧
    (index db true false).log = ["err"] ∧
    (showUser id db true).log = ["err"] ∧
    (create body bytes true db).log = ["err"] ∧
    (change id body true iF db).log = ["err"] ∧
    (remove id true iF db).log = ["err"] ∧
    (remove id false true db).log = ["err"] := by
  refine ⟨?_, rfl, rfl, ?_, rfl, rfl, ?_⟩
  · simp [change, h]
  · unfold create
    rw [hv]
    rfl
  · simp [remove, h]

/-- C7 witness: the theorem applied to a store holding one record with id aa,
a valid body email and concrete random bytes. -/
theorem change_inner_failure_unlogged_witness :
    change "aa" ⟨none, none, some "a@b.com", none, none⟩ false true
        [⟨"aa", none, none, none, none, none⟩] =
      ⟨⟨500, [], Body.msg ("Could not update User with ID " ++ "aa" ++ ".")⟩,
       [⟨"aa", none, none, none, none, none⟩], []⟩ ∧
    (index [⟨"aa", none, none, none, none, none⟩] true false).log = ["err"] ∧
    (showUser "aa" [⟨"aa", none, none, none, none, none⟩] true).log = ["err"] ∧
    (create ⟨none, none, some "a@b.com", none, none⟩ [1, 2, 3, 4] true
      [⟨"aa", none, none, none, none, none⟩]).log = ["err"] ∧
    (change "aa" ⟨none, none, some "a@b.com", none, none⟩ true false
      [⟨"aa", none, none, none, none, none⟩]).log = ["err"] ∧
    (remove "aa" true false [⟨"aa", none, none, none, none, none⟩]).log = ["err"] ∧
    (remove "aa" false true [⟨"aa", none, none, none, none, none⟩]).log = ["err"] :=
  change_inner_failure_unlogged "aa" ⟨none, none, some "a@b.com", none, none⟩ [1, 2, 3, 4]
    ⟨"aa", none, none, none, none, none⟩ [⟨"aa", none, none, none, none, none⟩] false
    (by decide) (by decide)

/-- C9: with a succeeding existence check, the delete handler answers 404
naming the id and leaves the table unchanged when the id matches no record;
when the id matches and the delete query succeeds it answers 200 with a
confirmation naming the id and removes the matching rows — and after the call
a get-one on that id answers 404. -/
theorem remove_behavior (id : String) (iF : Bool) (db : List User) :
    remove id false iF db =
      (match findById id db with
       | none =>
         ⟨⟨404, [], Body.msg ("User with ID " ++ id ++ " was not found to be deleted.")⟩, db, []⟩
       | some _ =>
         if iF then
           ⟨⟨500, [], Body.msg ("Could not delete User with ID " ++ id ++ ".")⟩, db, ["err"]⟩
         else
           ⟨⟨200, [], Body.msg ("User with ID " ++ id ++ " deleted. ")⟩, deleteById id db, []⟩) ∧
    (showUser id ((remove id false false db).db) false).resp =
      ⟨404, [], Body.msg ("User with ID " ++ id ++ " not found in the database.")⟩ := by
  constructor
  · unfold remove
    cases hf : findById id db <;> simp [hf]
  · cases hf : findById id db with
    | none =>
      have hdb : (remove id false false db).db = db := by simp [remove, hf]
      rw [hdb]
      simp [showUser, hf]
    | some u =>
      have hdb : (remove id false false db).db = deleteById id db := by simp [remove, hf]
      rw [hdb]
      simp [showUser, findById_deleteById]

end Authorization
